import Mathlib

/-!
Verification development for a Discord fitness-points bot.

The bot is a single Python file.  Its core consists of pure scoring
functions (minutes/steps/sleep/protein/etc. to points), an append-only
log table in SQLite, read-side aggregations (daily totals, leaderboards,
per-day series) and a streak calculator over the per-day totals.

Shallow embedding choices:
* every point value in the Python code is a float that is an exact
  multiple of 0.25 and all arithmetic on them (sums, min, comparisons
  against multiples of 0.25) is exact in IEEE double precision, so
  points are modelled as rationals;
* calendar dates appear in the code as ISO `YYYY-MM-DD` strings whose
  lexicographic order coincides with chronological order, and date
  arithmetic is whole days, so dates are modelled as integer day
  numbers (the SQL BETWEEN on date strings becomes an integer interval
  test);
* the logs table is modelled as a list of rows in insertion order;
  INSERT is list append;
* Python `//` on integers is floor division, modelled with `Int.fdiv`.
-/

namespace FitnessBot

/-- Embeds calc_strength_points: minutes below 30 give 0, below 45 give 1,
below 60 give 1.25, otherwise 1.5. -/
def calc_strength_points (minutes : Int) : ℚ :=
  if minutes < 30 then 0
  else if minutes < 45 then 1
  else if minutes < 60 then 1.25
  else 1.5

/-- Embeds calc_cardio_points: when steps are provided they override the
minutes rule (below 10000 give 0, below 15000 give 1, otherwise 1.5);
with no steps the minutes thresholds match calc_strength_points. -/
def calc_cardio_points (minutes : Int) (steps : Option Int) : ℚ :=
  match steps with
  | some s =>
    if s < 10000 then 0
    else if s < 15000 then 1
    else 1.5
  | none =>
    if minutes < 30 then 0
    else if minutes < 45 then 1
    else if minutes < 60 then 1.25
    else 1.5

/-- Embeds calc_sleep_points: hours below 6 give 0, below 8 give 1,
otherwise 2. -/
def calc_sleep_points (hours : ℚ) : ℚ :=
  if hours < 6 then 0 else if hours < 8 then 1 else 2

/-- Embeds calc_protein_points: one point per heavy meal plus half a point
per shake, capped at 1.5. -/
def calc_protein_points (heavy_meals protein_shakes : Int) : ℚ :=
  min ((heavy_meals : ℚ) * 1 + (protein_shakes : ℚ) * 0.5) 1.5

/-- Embeds calc_supplement_points: a quarter point per supplement taken. -/
def calc_supplement_points (vitamins creatine magnesium omega3 : Bool) : ℚ :=
  ((vitamins.toNat + creatine.toNat + magnesium.toNat + omega3.toNat : Nat) : ℚ) * 0.25

/-- Embeds calc_water_points: 80 ounces or more give half a point. -/
def calc_water_points (ounces : Int) : ℚ :=
  if 80 ≤ ounces then 0.5 else 0

/-- Embeds calc_alcohol_penalty: fewer than 3 drinks give 0, otherwise
minus one point per full group of 3 drinks (Python floor division). -/
def calc_alcohol_penalty (drinks : Int) : ℚ :=
  if drinks < 3 then 0 else -1 * ((Int.fdiv drinks 3 : Int) : ℚ)

/-- Embeds calc_pastry_penalty: minus one point per pastry. -/
def calc_pastry_penalty (pastries : Int) : ℚ :=
  -1 * (pastries : ℚ)

/-- Embeds calc_fastfood_penalty: minus one point per fast-food meal. -/
def calc_fastfood_penalty (meals : Int) : ℚ :=
  -1 * (meals : ℚ)

/-- Embeds one row of the logs table (the auto-increment id and the
created_at audit column are omitted: no computation reads them). -/
structure Entry where
  user_id : Nat
  username : String
  date : Int
  category : String
  value : ℚ
  points : ℚ
deriving DecidableEq

/-- Embeds add_log: INSERT appends one row to the logs table. -/
def add_log (db : List Entry) (e : Entry) : List Entry :=
  db ++ [e]

/-- Embeds daily_points_for_user: SUM of points over rows with the given
user and date (an empty SUM is NULL, which the code turns into 0). -/
def daily_points_for_user (db : List Entry) (uid : Nat) (date : Int) : ℚ :=
  ((db.filter fun r => decide (r.user_id = uid ∧ r.date = date)).map
    (fun r => r.points)).sum

/-- Embeds the WHERE date BETWEEN clause of leaderboard_for_range. -/
def in_range (start_date end_date : Int) (r : Entry) : Bool :=
  decide (start_date ≤ r.date ∧ r.date ≤ end_date)

/-- Embeds the GROUP BY user_id, username key of leaderboard_for_range. -/
def entry_key (r : Entry) : Nat × String :=
  (r.user_id, r.username)

/-- Embeds the SUM(points) aggregate of one leaderboard group. -/
def group_total (rows : List Entry) (k : Nat × String) : ℚ :=
  ((rows.filter fun r => decide (entry_key r = k)).map (fun r => r.points)).sum

/-- Embeds leaderboard_for_range before LIMIT: filter the date range,
group by (user_id, username), sum points per group, order by total
descending.  SQLite leaves the relative order of equal totals
unspecified but deterministic for a fixed input; the embedding fixes one
such order (group keys in List.dedup order, then a stable insertion
sort). -/
def leaderboard_full (db : List Entry) (start_date end_date : Int) :
    List ((Nat × String) × ℚ) :=
  let rows := db.filter (in_range start_date end_date)
  let keys := (rows.map entry_key).dedup
  List.insertionSort (fun a b => b.2 ≤ a.2)
    (keys.map fun k => (k, group_total rows k))

/-- Embeds leaderboard_for_range: the ordered per-group totals truncated
by LIMIT. -/
def leaderboard_for_range (db : List Entry) (start_date end_date : Int)
    (limit : Nat) : List ((Nat × String) × ℚ) :=
  (leaderboard_full db start_date end_date).take limit

/-- Two rows for the same user id under two usernames, used to exercise
the leaderboard grouping. -/
def two_name_db : List Entry :=
  [⟨1, "a", 0, "strength", 30, 2⟩, ⟨1, "b", 0, "strength", 45, 3⟩]

/-- Embeds totals_map.get(ds, 0.0): lookup in the per-day totals
association list with a default (the GROUP BY date query produces at
most one row per date, so keys are unique and first match suffices). -/
def getD (m : List (Int × ℚ)) (k : Int) (d : ℚ) : ℚ :=
  match m with
  | [] => d
  | (k2, v) :: rest => if k = k2 then v else getD rest k d

/-- Embeds the good-day test of current_and_best_streak_for_user: the
day's total (0 for a missing day) is at least the threshold. -/
def good_day (totals : List (Int × ℚ)) (threshold : ℚ) (d : Int) : Bool :=
  decide (threshold ≤ getD totals d 0)

/-- Embeds the backward loop of current_and_best_streak_for_user:
starting at day d, count consecutive good days going backward, stopping
at the first bad day or after the given number of iterations. -/
def current_loop (good : Int → Bool) : Int → Nat → Nat
  | _, 0 => 0
  | d, r + 1 => if good d then current_loop good (d - 1) r + 1 else 0

/-- Embeds the forward loop of current_and_best_streak_for_user: a
running counter of consecutive good days, with the best value recorded
whenever the counter exceeds it. -/
def best_loop (good : Int → Bool) : Int → Nat → Nat → Nat → Nat
  | _, 0, _, best => best
  | d, r + 1, running, best =>
    if good d then
      best_loop good (d + 1) r (running + 1)
        (if best < running + 1 then running + 1 else best)
    else
      best_loop good (d + 1) r 0 best

/-- Embeds current_and_best_streak_for_user given the per-day totals
that the windowed GROUP BY date query returns: the window is the
max_days days ending at end_day (its start is end_day - (max_days - 1));
the current streak counts backward from end_day and the best streak
scans the window forward. -/
def current_and_best_streak_for_user (totals : List (Int × ℚ))
    (threshold : ℚ) (max_days : Nat) (end_day : Int) : Nat × Nat :=
  let start_day : Int := end_day - ((max_days : Int) - 1)
  (current_loop (good_day totals threshold) end_day max_days,
   best_loop (good_day totals threshold) start_day max_days 0 0)

/-- Reference definition following the spec text for the current streak:
count backward from today day by day, incrementing while each day is
good, stopping at the first break or after max_days; phrased as the
length of the longest good prefix of the backward day sequence. -/
def current_streak_spec (good : Int → Bool) (end_day : Int) (max_days : Nat) : Nat :=
  (((List.range max_days).map fun (i : Nat) => good (end_day - (i : Int))).takeWhile id).length

/-- Reference definition following the spec text for the values taken by
the running counter of the forward scan: incremented on each good day,
reset to 0 on any non-good day. -/
def running_values (good : Int → Bool) : Int → Nat → Nat → List Nat
  | _, _, 0 => []
  | d, run, r + 1 =>
    (if good d then run + 1 else 0) ::
      running_values good (d + 1) (if good d then run + 1 else 0) r

/-- Reference definition following the spec text for the best streak:
the maximum running value observed over the forward scan of the window. -/
def best_streak_spec (good : Int → Bool) (end_day : Int) (max_days : Nat) : Nat :=
  (running_values good (end_day - ((max_days : Int) - 1)) 0 max_days).foldr max 0

/-- Per-day totals [5, 5, 0, 5, 5, 5, 5] (oldest to newest) on days 0
through 6, the streak example of the spec. -/
def c1_totals : List (Int × ℚ) :=
  [(0, 5), (1, 5), (2, 0), (3, 5), (4, 5), (5, 5), (6, 5)]

/-- Embeds the replies a numeric dialog question can receive: the skip
keyword, an unparsable message (which re-prompts), or a number.  An
exhausted reply list stands for the 120-second timeout. -/
inductive NumReply (α : Type) where
  | skip
  | invalid
  | num (v : α)

/-- Embeds ask_number: return the default on timeout or on the skip
keyword, re-prompt on unparsable or out-of-range input, and return the
first acceptable number.  Instantiated at Int for whole-number questions
and at the rationals for the float question (sleep hours). -/
def ask_number {α : Type} [LinearOrder α] (default min_val : α)
    (max_val : Option α) : List (NumReply α) → α
  | [] => default
  | NumReply.skip :: _ => default
  | NumReply.invalid :: rest => ask_number default min_val max_val rest
  | NumReply.num v :: rest =>
    if v < min_val then ask_number default min_val max_val rest
    else
      match max_val with
      | some m => if m < v then ask_number default min_val max_val rest else v
      | none => v

/-- Embeds the replies a yes/no dialog question can receive. -/
inductive YesNoReply where
  | skip
  | yes
  | no
  | invalid

/-- Embeds ask_yesno: default on timeout or skip, true on yes, false on
no, re-prompt otherwise. -/
def ask_yesno (default : Bool) : List YesNoReply → Bool
  | [] => default
  | YesNoReply.skip :: _ => default
  | YesNoReply.yes :: _ => true
  | YesNoReply.no :: _ => false
  | YesNoReply.invalid :: rest => ask_yesno default rest

/-- Reply scripts for the fourteen questions of run_checkin_dialog, in
the order the dialog asks them. -/
structure CheckinScripts where
  lift_min : List (NumReply Int)
  cardio_min : List (NumReply Int)
  steps : List (NumReply Int)
  sleep_hours : List (NumReply ℚ)
  heavy_meals : List (NumReply Int)
  shakes : List (NumReply Int)
  vitamins : List YesNoReply
  creatine : List YesNoReply
  magnesium : List YesNoReply
  omega3 : List YesNoReply
  water_oz : List (NumReply Int)
  drinks : List (NumReply Int)
  pastries : List (NumReply Int)
  fast_meals : List (NumReply Int)

/-- The value each question of run_checkin_dialog resolves to. -/
structure CheckinAnswers where
  lift_min : Int
  cardio_min : Int
  steps : Int
  sleep_hours : ℚ
  heavy_meals : Int
  shakes : Int
  vitamins : Bool
  creatine : Bool
  magnesium : Bool
  omega3 : Bool
  water_oz : Int
  drinks : Int
  pastries : Int
  fast_meals : Int

/-- Embeds the ask_number / ask_yesno calls of run_checkin_dialog with
the defaults and bounds used in the code (all defaults 0 or no). -/
def resolve_checkin (s : CheckinScripts) : CheckinAnswers where
  lift_min := ask_number 0 0 (some 300) s.lift_min
  cardio_min := ask_number 0 0 (some 300) s.cardio_min
  steps := ask_number 0 0 (some 100000) s.steps
  sleep_hours := ask_number 0 0 (some 16) s.sleep_hours
  heavy_meals := ask_number 0 0 (some 10) s.heavy_meals
  shakes := ask_number 0 0 (some 10) s.shakes
  vitamins := ask_yesno false s.vitamins
  creatine := ask_yesno false s.creatine
  magnesium := ask_yesno false s.magnesium
  omega3 := ask_yesno false s.omega3
  water_oz := ask_number 0 0 (some 300) s.water_oz
  drinks := ask_number 0 0 (some 30) s.drinks
  pastries := ask_number 0 0 (some 20) s.pastries
  fast_meals := ask_number 0 0 (some 10) s.fast_meals

/-- Embeds the conditional add_log calls of run_checkin_dialog in code
order: a category's entry is appended only when its guard holds (value
strictly positive, or any supplement taken, or any protein source). -/
def checkin_entries (uid : Nat) (uname : String) (date : Int)
    (a : CheckinAnswers) : List Entry :=
  (if 0 < a.lift_min then
    [⟨uid, uname, date, "strength", (a.lift_min : ℚ), calc_strength_points a.lift_min⟩]
   else []) ++
  (if 0 < a.steps then
    [⟨uid, uname, date, "steps", (a.steps : ℚ), calc_cardio_points 0 (some a.steps)⟩]
   else []) ++
  (if 0 < a.cardio_min then
    [⟨uid, uname, date, "cardio", (a.cardio_min : ℚ), calc_cardio_points a.cardio_min none⟩]
   else []) ++
  (if 0 < a.sleep_hours then
    [⟨uid, uname, date, "sleep", a.sleep_hours, calc_sleep_points a.sleep_hours⟩]
   else []) ++
  (if 0 < a.heavy_meals ∨ 0 < a.shakes then
    [⟨uid, uname, date, "protein", ((a.heavy_meals + a.shakes : Int) : ℚ),
      calc_protein_points a.heavy_meals a.shakes⟩]
   else []) ++
  (if a.vitamins || a.creatine || a.magnesium || a.omega3 then
    [⟨uid, uname, date, "supplements",
      ((a.vitamins.toNat + a.creatine.toNat + a.magnesium.toNat + a.omega3.toNat : Nat) : ℚ),
      calc_supplement_points a.vitamins a.creatine a.magnesium a.omega3⟩]
   else []) ++
  (if 0 < a.water_oz then
    [⟨uid, uname, date, "water", (a.water_oz : ℚ), calc_water_points a.water_oz⟩]
   else []) ++
  (if 0 < a.drinks then
    [⟨uid, uname, date, "alcohol", (a.drinks : ℚ), calc_alcohol_penalty a.drinks⟩]
   else []) ++
  (if 0 < a.pastries then
    [⟨uid, uname, date, "pastry", (a.pastries : ℚ), calc_pastry_penalty a.pastries⟩]
   else []) ++
  (if 0 < a.fast_meals then
    [⟨uid, uname, date, "fastfood", (a.fast_meals : ℚ), calc_fastfood_penalty a.fast_meals⟩]
   else [])

/-- Embeds run_checkin_dialog: resolve every question from its reply
script, then append the entries of the categories with non-default
answers. -/
def run_checkin_dialog (uid : Nat) (uname : String) (date : Int)
    (s : CheckinScripts) : List Entry :=
  checkin_entries uid uname date (resolve_checkin s)

/-- Holds when some entry of the list carries the given category. -/
def logs_category (l : List Entry) (c : String) : Prop :=
  ∃ e ∈ l, e.category = c

/-- A dialog session in which every question times out. -/
def all_timeout_scripts : CheckinScripts :=
  ⟨[], [], [], [], [], [], [], [], [], [], [], [], [], []⟩

instance : DecidableRel (fun (a b : (Nat × String) × ℚ) => b.2 ≤ a.2) :=
  fun a b => inferInstanceAs (Decidable (b.2 ≤ a.2))

instance : IsTotal ((Nat × String) × ℚ) (fun a b => b.2 ≤ a.2) :=
  ⟨fun a b => le_total b.2 a.2⟩

instance : IsTrans ((Nat × String) × ℚ) (fun a b => b.2 ≤ a.2) :=
  ⟨fun _ _ _ h1 h2 => le_trans h2 h1⟩

/-- Helper: one append changes a daily total by the new row's points when
the row matches the queried user and date, and by nothing otherwise. -/
theorem daily_points_add_log (db : List Entry) (e : Entry) (uid : Nat) (d : Int) :
    daily_points_for_user (add_log db e) uid d =
      daily_points_for_user db uid d +
        (if e.user_id = uid ∧ e.date = d then e.points else 0) := by
  by_cases h : e.user_id = uid ∧ e.date = d <;>
    simp [daily_points_for_user, add_log, List.filter_append, h]

/-- C5: appending the same entry twice yields two independent rows (the
store is append-only, never deduplicated or overwritten), each append
adds exactly the entry's points to the matching daily total, and two
identical appends double the contribution. -/
theorem add_log_two_rows_additive (db : List Entry) (e : Entry) (uid : Nat) (d : Int) :
    add_log db e = db ++ [e] ∧
    add_log (add_log db e) e = db ++ [e, e] ∧
    (add_log (add_log db e) e).length = db.length + 2 ∧
    daily_points_for_user (add_log db e) uid d =
      daily_points_for_user db uid d +
        (if e.user_id = uid ∧ e.date = d then e.points else 0) ∧
    daily_points_for_user (add_log (add_log db e) e) e.user_id e.date =
      daily_points_for_user db e.user_id e.date + 2 * e.points := by
  refine ⟨rfl, by simp [add_log], by simp [add_log],
    daily_points_add_log db e uid d, ?_⟩
  rw [daily_points_add_log, daily_points_add_log]
  simp
  ring

/-- Helper: the leaderboard of the two-username store, fully evaluated. -/
theorem two_name_db_leaderboard_eval :
    leaderboard_full two_name_db 0 0 = [((1, "b"), 3), ((1, "a"), 2)] := by
  norm_num +decide [leaderboard_full, two_name_db, in_range, entry_key, group_total,
    List.dedup, List.filter_cons, List.filter_nil]

/-- C2 counterexample: the leaderboard does not return one entry per
user id.  The code groups by (user_id, username), so two rows for the
same user id under two usernames produce two leaderboard entries. -/
theorem leaderboard_two_entries_per_user_id :
    ¬ (((leaderboard_for_range two_name_db 0 0 10).map fun x => x.1.1).Nodup) := by
  simp only [leaderboard_for_range, two_name_db_leaderboard_eval]
  decide

/-- C2 amended: for every date range and limit the leaderboard is the
truncation, to the limit, of a list with one entry per (user_id,
username) pair occurring among the rows whose date lies in the range,
each entry carrying the sum of that pair's points over those rows,
ordered descending by summed points with ties in a deterministic order. -/
theorem leaderboard_grouped_by_user_and_name (db : List Entry) (s e : Int) (limit : Nat) :
    leaderboard_for_range db s e limit = (leaderboard_full db s e).take limit ∧
    ((leaderboard_full db s e).map Prod.fst).Nodup ∧
    (∀ k : Nat × String, k ∈ (leaderboard_full db s e).map Prod.fst ↔
      ∃ r ∈ db, entry_key r = k ∧ s ≤ r.date ∧ r.date ≤ e) ∧
    (∀ x ∈ leaderboard_full db s e,
      x.2 = group_total (db.filter (in_range s e)) x.1) ∧
    List.Sorted (fun a b => b.2 ≤ a.2) (leaderboard_full db s e) ∧
    (leaderboard_for_range db s e limit).length ≤ limit := by
  have hperm : List.Perm (leaderboard_full db s e)
      (((db.filter (in_range s e)).map entry_key).dedup.map
        (fun k => (k, group_total (db.filter (in_range s e)) k))) :=
    List.perm_insertionSort _ _
  have hprefst :
      (((db.filter (in_range s e)).map entry_key).dedup.map
        (fun k => (k, group_total (db.filter (in_range s e)) k))).map Prod.fst
        = ((db.filter (in_range s e)).map entry_key).dedup := by
    simp [List.map_map, Function.comp_def]
  refine ⟨rfl, ?_, ?_, ?_, List.sorted_insertionSort _ _, ?_⟩
  · refine ((hperm.map Prod.fst).nodup_iff).mpr ?_
    rw [hprefst]
    exact List.nodup_dedup _
  · intro k
    rw [(hperm.map Prod.fst).mem_iff, hprefst]
    simp only [List.mem_dedup, List.mem_map, List.mem_filter, in_range,
      decide_eq_true_eq]
    tauto
  · intro x hx
    have hx2 := hperm.mem_iff.mp hx
    simp only [List.mem_map] at hx2
    obtain ⟨kk, _, rfl⟩ := hx2
    rfl
  · simp only [leaderboard_for_range, List.length_take]
    exact min_le_left _ _

theorem leaderboard_grouped_witness :
    ((1, "b"), (3 : ℚ)) ∈ leaderboard_full two_name_db 0 0 ∧
    (3 : ℚ) = group_total (two_name_db.filter (in_range 0 0)) (1, "b") := by
  have hmem : ((1, "b"), (3 : ℚ)) ∈ leaderboard_full two_name_db 0 0 := by
    rw [two_name_db_leaderboard_eval]
    simp
  exact ⟨hmem,
    (leaderboard_grouped_by_user_and_name two_name_db 0 0 10).2.2.2.1 _ hmem⟩

/-- C6: whenever steps are provided, calc_cardio_points follows the step
thresholds (below 10000 gives 0, 10000 to 14999 gives 1, 15000 and up
gives 1.5) and the result does not depend on the minutes argument. -/
theorem cardio_steps_thresholds (m m1 m2 s : Int) :
    (s < 10000 → calc_cardio_points m (some s) = 0) ∧
    (10000 ≤ s → s < 15000 → calc_cardio_points m (some s) = 1) ∧
    (15000 ≤ s → calc_cardio_points m (some s) = 1.5) ∧
    calc_cardio_points m1 (some s) = calc_cardio_points m2 (some s) := by
  refine ⟨fun h => ?_, fun h1 h2 => ?_, fun h => ?_, rfl⟩
  · simp [calc_cardio_points, h]
  · simp [calc_cardio_points, h2, not_lt.mpr h1]
  · have h1 : ¬ s < 10000 := by omega
    have h2 : ¬ s < 15000 := by omega
    simp [calc_cardio_points, h1, h2]

theorem cardio_steps_thresholds_witness :
    calc_cardio_points 7 (some 9999) = 0 ∧
    calc_cardio_points 7 (some 10000) = 1 ∧
    calc_cardio_points 7 (some 14999) = 1 ∧
    calc_cardio_points 7 (some 15000) = 1.5 ∧
    calc_cardio_points 3 (some 12000) = calc_cardio_points 99 (some 12000) :=
  ⟨(cardio_steps_thresholds 7 0 0 9999).1 (by decide),
   (cardio_steps_thresholds 7 0 0 10000).2.1 (by decide) (by decide),
   (cardio_steps_thresholds 7 0 0 14999).2.1 (by decide) (by decide),
   (cardio_steps_thresholds 7 0 0 15000).2.2.1 (by decide),
   (cardio_steps_thresholds 0 3 99 12000).2.2.2⟩

/-- C7: calc_strength_points is monotonically non-decreasing in minutes,
its value always lies in the set containing 0, 1, 1.25 and 1.5, and the
boundary minutes 29, 30, 44, 45, 59, 60 map to 0, 1, 1, 1.25, 1.25, 1.5. -/
theorem strength_monotone_range (m1 m2 m : Int) :
    (m1 ≤ m2 → calc_strength_points m1 ≤ calc_strength_points m2) ∧
    (calc_strength_points m = 0 ∨ calc_strength_points m = 1 ∨
      calc_strength_points m = 1.25 ∨ calc_strength_points m = 1.5) ∧
    (calc_strength_points 29 = 0 ∧ calc_strength_points 30 = 1 ∧
      calc_strength_points 44 = 1 ∧ calc_strength_points 45 = 1.25 ∧
      calc_strength_points 59 = 1.25 ∧ calc_strength_points 60 = 1.5) := by
  refine ⟨fun h12 => ?_, ?_, by norm_num [calc_strength_points]⟩
  · unfold calc_strength_points
    split_ifs <;> first | (exfalso; omega) | norm_num
  · unfold calc_strength_points
    split_ifs <;> norm_num

theorem strength_monotone_range_witness :
    calc_strength_points 10 ≤ calc_strength_points 50 :=
  (strength_monotone_range 10 50 0).1 (by decide)

/-- C8: for drinks between 0 and 30, calc_alcohol_penalty is 0 below 3
drinks and minus the floor of drinks divided by 3 otherwise; in
particular 2, 3, 5, 6 drinks give 0, minus 1, minus 1, minus 2. -/
theorem alcohol_penalty_formula (d : Int) (h0 : 0 ≤ d) (h30 : d ≤ 30) :
    ((d < 3 → calc_alcohol_penalty d = 0) ∧
     (3 ≤ d → calc_alcohol_penalty d = -1 * ((Int.fdiv d 3 : Int) : ℚ))) ∧
    (calc_alcohol_penalty 2 = 0 ∧ calc_alcohol_penalty 3 = -1 ∧
     calc_alcohol_penalty 5 = -1 ∧ calc_alcohol_penalty 6 = -2) := by
  refine ⟨⟨fun h => ?_, fun h => ?_⟩, ?_, ?_, ?_, ?_⟩
  · simp [calc_alcohol_penalty, h]
  · simp [calc_alcohol_penalty, not_lt.mpr h]
  · norm_num [calc_alcohol_penalty]
  · norm_num [calc_alcohol_penalty, Int.fdiv_eq_ediv]
  · norm_num [calc_alcohol_penalty, Int.fdiv_eq_ediv]
  · norm_num [calc_alcohol_penalty, Int.fdiv_eq_ediv]

theorem alcohol_penalty_formula_witness :
    calc_alcohol_penalty 7 = -1 * ((Int.fdiv 7 3 : Int) : ℚ) :=
  (alcohol_penalty_formula 7 (by decide) (by decide)).1.2 (by decide)

/-- C9: for all non-negative integer meal and shake counts, the protein
score is the minimum of one point per heavy meal plus half a point per
shake and the cap 1.5; two heavy meals with three shakes hit the cap. -/
theorem protein_min_cap (h s : Nat) :
    calc_protein_points h s = min ((h : ℚ) * 1 + (s : ℚ) * 0.5) 1.5 ∧
    calc_protein_points 2 3 = 1.5 := by
  constructor
  · simp [calc_protein_points]
  · norm_num [calc_protein_points]

/-- C1 counterexample: on daily totals [5, 5, 0, 5, 5, 5, 5] with
threshold 4 the streak computation does not return (5, 5): only four
consecutive good days follow the zero day. -/
theorem streak_example_not_five :
    current_and_best_streak_for_user c1_totals 4 7 6 ≠ (5, 5) := by
  decide

/-- C1 amended: on daily totals [5, 5, 0, 5, 5, 5, 5] (oldest to newest)
with threshold 4 the streak computation returns current_streak = 4
(counting back from the last day) and best_streak = 4 over the whole
window. -/
theorem streak_example_four_four :
    current_and_best_streak_for_user c1_totals 4 7 6 = (4, 4) := by
  decide

/-- Helper: the backward counting loop equals the spec's backward
description of the current streak. -/
theorem current_loop_eq_spec (good : Int → Bool) :
    ∀ (r : Nat) (d : Int), current_loop good d r = current_streak_spec good d r := by
  intro r
  induction r with
  | zero => intro d; simp [current_loop, current_streak_spec]
  | succ n ih =>
    intro d
    have hrange :
        ((List.range (n + 1)).map fun (i : Nat) => good (d - (i : Int)))
          = good d :: ((List.range n).map fun (i : Nat) => good ((d - 1) - (i : Int))) := by
      rw [List.range_succ_eq_map]
      simp only [List.map_cons, Nat.cast_zero, sub_zero, List.map_map]
      congr 1
      refine List.map_congr_left fun i _ => ?_
      simp only [Function.comp_apply]
      congr 1
      push_cast
      ring
    rw [current_streak_spec, hrange]
    by_cases h : good d
    · have hl : current_loop good d (n + 1) = current_loop good (d - 1) n + 1 := by
        simp [current_loop, h]
      rw [hl, ih (d - 1), List.takeWhile_cons]
      simp [h, current_streak_spec]
    · have hl : current_loop good d (n + 1) = 0 := by simp [current_loop, h]
      rw [hl, List.takeWhile_cons]
      simp [h]

/-- Helper: folding max into a larger seed splits off the seed. -/
theorem foldr_max_max (l : List Nat) :
    ∀ (x b : Nat), l.foldr max (max x b) = max x (l.foldr max b) := by
  induction l with
  | nil => intro x b; rfl
  | cons a t ih => intro x b; simp [List.foldr_cons, ih, Nat.max_left_comm]

/-- Helper: the forward loop computes the maximum of the seed and all
running-counter values. -/
theorem best_loop_eq_running (good : Int → Bool) :
    ∀ (r : Nat) (d : Int) (running best : Nat),
      best_loop good d r running best =
        (running_values good d running r).foldr max best := by
  intro r
  induction r with
  | zero => intro d running best; rfl
  | succ n ih =>
    intro d running best
    by_cases h : good d
    · have hstep : best_loop good d (n + 1) running best
          = best_loop good (d + 1) n (running + 1)
              (if best < running + 1 then running + 1 else best) := by
        simp [best_loop, h]
      have hrun : running_values good d running (n + 1)
          = (running + 1) :: running_values good (d + 1) (running + 1) n := by
        simp [running_values, h]
      rw [hstep, ih, hrun, List.foldr_cons]
      have hb : (if best < running + 1 then running + 1 else best)
          = max (running + 1) best := by
        split_ifs <;> omega
      rw [hb, foldr_max_max]
    · have hstep : best_loop good d (n + 1) running best
          = best_loop good (d + 1) n 0 best := by
        simp [best_loop, h]
      have hrun : running_values good d running (n + 1)
          = 0 :: running_values good (d + 1) 0 n := by
        simp [running_values, h]
      rw [hstep, ih, hrun, List.foldr_cons]
      omega

/-- C3: the streak computation agrees with the reference definitions
written from the spec (backward count for the current streak, maximum
observed running counter for the best streak), and a day whose total is
exactly the threshold counts as good. -/
theorem streak_matches_spec (totals : List (Int × ℚ)) (θ : ℚ)
    (max_days : Nat) (end_day d : Int) :
    current_and_best_streak_for_user totals θ max_days end_day =
      (current_streak_spec (good_day totals θ) end_day max_days,
       best_streak_spec (good_day totals θ) end_day max_days) ∧
    (getD totals d 0 = θ → good_day totals θ d = true) := by
  constructor
  · have hpair : current_and_best_streak_for_user totals θ max_days end_day
        = (current_loop (good_day totals θ) end_day max_days,
           best_loop (good_day totals θ) (end_day - ((max_days : Int) - 1))
             max_days 0 0) := rfl
    rw [hpair, current_loop_eq_spec, best_loop_eq_running, best_streak_spec]
  · intro h
    simp [good_day, h]

theorem streak_matches_spec_witness :
    current_and_best_streak_for_user c1_totals 5 7 6 =
      (current_streak_spec (good_day c1_totals 5) 6 7,
       best_streak_spec (good_day c1_totals 5) 6 7) ∧
    good_day c1_totals 5 0 = true := by
  have h := streak_matches_spec c1_totals 5 7 6 0
  exact ⟨h.1, h.2 (by decide)⟩

/-- Helper: the backward loop runs at most r iterations. -/
theorem current_loop_le (good : Int → Bool) :
    ∀ (r : Nat) (d : Int), current_loop good d r ≤ r := by
  intro r
  induction r with
  | zero => intro d; simp [current_loop]
  | succ n ih =>
    intro d
    have hn := ih (d - 1)
    by_cases h : good d
    · have hl : current_loop good d (n + 1) = current_loop good (d - 1) n + 1 := by
        simp [current_loop, h]
      omega
    · have hl : current_loop good d (n + 1) = 0 := by simp [current_loop, h]
      omega

/-- Helper: every day counted by the backward loop is good. -/
theorem current_loop_good (good : Int → Bool) :
    ∀ (r : Nat) (d : Int) (i : Nat), i < current_loop good d r →
      good (d - (i : Int)) = true := by
  intro r
  induction r with
  | zero => intro d i hi; simp [current_loop] at hi
  | succ n ih =>
    intro d i hi
    by_cases h : good d
    · have hl : current_loop good d (n + 1) = current_loop good (d - 1) n + 1 := by
        simp [current_loop, h]
      rw [hl] at hi
      match i with
      | 0 => simpa using h
      | j + 1 =>
        have hj := ih (d - 1) j (by omega)
        have harg : d - (((j + 1 : Nat)) : Int) = (d - 1) - (j : Int) := by
          push_cast; ring
        rwa [harg]
    · have hl : current_loop good d (n + 1) = 0 := by simp [current_loop, h]
      omega

/-- Helper: the forward loop never returns less than its best seed. -/
theorem best_loop_ge_best (good : Int → Bool) :
    ∀ (r : Nat) (d : Int) (running best : Nat),
      best ≤ best_loop good d r running best := by
  intro r
  induction r with
  | zero => intro d running best; exact le_refl _
  | succ n ih =>
    intro d running best
    by_cases h : good d
    · have hstep : best_loop good d (n + 1) running best
          = best_loop good (d + 1) n (running + 1)
              (if best < running + 1 then running + 1 else best) := by
        simp [best_loop, h]
      rw [hstep]
      refine le_trans ?_ (ih (d + 1) (running + 1) _)
      split_ifs <;> omega
    · have hstep : best_loop good d (n + 1) running best
          = best_loop good (d + 1) n 0 best := by
        simp [best_loop, h]
      rw [hstep]
      exact ih (d + 1) 0 best

/-- Helper: the forward loop is bounded by its seeds plus the number of
remaining iterations. -/
theorem best_loop_le (good : Int → Bool) :
    ∀ (r : Nat) (d : Int) (running best : Nat),
      best_loop good d r running best ≤ max best (running + r) := by
  intro r
  induction r with
  | zero =>
    intro d running best
    have hl : best_loop good d 0 running best = best := rfl
    omega
  | succ n ih =>
    intro d running best
    by_cases h : good d
    · have hstep : best_loop good d (n + 1) running best
          = best_loop good (d + 1) n (running + 1)
              (if best < running + 1 then running + 1 else best) := by
        simp [best_loop, h]
      rw [hstep]
      have h1 := ih (d + 1) (running + 1)
        (if best < running + 1 then running + 1 else best)
      split_ifs at h1 ⊢ <;> omega
    · have hstep : best_loop good d (n + 1) running best
          = best_loop good (d + 1) n 0 best := by
        simp [best_loop, h]
      rw [hstep]
      have h1 := ih (d + 1) 0 best
      omega

/-- Helper: when the last c scanned days are all good, the forward loop
returns at least c (and additionally credits the incoming running
counter when the whole scan is good). -/
theorem best_loop_trail (good : Int → Bool) :
    ∀ (r c : Nat) (d : Int) (running best : Nat), c ≤ r →
      (∀ i : Nat, i < c → good (d + ((r : Int) - 1 - (i : Int))) = true) →
      c + (if c = r ∧ 0 < c then running else 0) ≤ best_loop good d r running best := by
  intro r
  induction r with
  | zero =>
    intro c d running best hc _
    have hc0 : c = 0 := by omega
    subst hc0
    simp [best_loop]
  | succ n ih =>
    intro c d running best hc hgood
    rcases Nat.eq_zero_or_pos c with hc0 | hcpos
    · subst hc0
      have hb := best_loop_ge_best good (n + 1) d running best
      rw [if_neg (by omega : ¬ ((0 : Nat) = n + 1 ∧ 0 < (0 : Nat)))]
      omega
    · by_cases hcr : c = n + 1
      · have hd : good d = true := by
          have hn := hgood n (by omega)
          have harg : d + (((n + 1 : Nat) : Int) - 1 - (n : Int)) = d := by
            push_cast; ring
          rwa [harg] at hn
        have hstep : best_loop good d (n + 1) running best
            = best_loop good (d + 1) n (running + 1)
                (if best < running + 1 then running + 1 else best) := by
          simp [best_loop, hd]
        rw [hstep]
        rcases Nat.eq_zero_or_pos n with hn0 | hnpos
        · subst hn0
          subst hcr
          have hz : best_loop good (d + 1) 0 (running + 1)
              (if best < running + 1 then running + 1 else best)
              = (if best < running + 1 then running + 1 else best) := rfl
          rw [hz]
          split_ifs <;> omega
        · have hgood2 : ∀ i : Nat, i < n →
              good ((d + 1) + ((n : Int) - 1 - (i : Int))) = true := by
            intro i hi
            have hgi := hgood i (by omega)
            have harg : d + (((n + 1 : Nat) : Int) - 1 - (i : Int))
                = (d + 1) + ((n : Int) - 1 - (i : Int)) := by push_cast; ring
            rwa [harg] at hgi
          have hih := ih n (d + 1) (running + 1)
            (if best < running + 1 then running + 1 else best) (le_refl n) hgood2
          rw [if_pos ⟨rfl, hnpos⟩] at hih
          subst hcr
          rw [if_pos ⟨rfl, hcpos⟩]
          omega
      · have hcn : c ≤ n := by omega
        have hgood2 : ∀ i : Nat, i < c →
            good ((d + 1) + ((n : Int) - 1 - (i : Int))) = true := by
          intro i hi
          have hgi := hgood i hi
          have harg : d + (((n + 1 : Nat) : Int) - 1 - (i : Int))
              = (d + 1) + ((n : Int) - 1 - (i : Int)) := by push_cast; ring
          rwa [harg] at hgi
        rw [if_neg (by omega : ¬ (c = n + 1 ∧ 0 < c))]
        by_cases hd : good d
        · have hstep : best_loop good d (n + 1) running best
              = best_loop good (d + 1) n (running + 1)
                  (if best < running + 1 then running + 1 else best) := by
            simp [best_loop, hd]
          rw [hstep]
          have hih := ih c (d + 1) (running + 1)
            (if best < running + 1 then running + 1 else best) hcn hgood2
          omega
        · have hstep : best_loop good d (n + 1) running best
              = best_loop good (d + 1) n 0 best := by
            simp [best_loop, hd]
          rw [hstep]
          have hih := ih c (d + 1) 0 best hcn hgood2
          omega

/-- C10: for every per-day totals map, threshold, window length and
window end, the streak computation satisfies 0 ≤ current_streak ≤
best_streak ≤ max_days. -/
theorem streak_bounds (totals : List (Int × ℚ)) (θ : ℚ)
    (max_days : Nat) (end_day : Int) :
    0 ≤ (current_and_best_streak_for_user totals θ max_days end_day).1 ∧
    (current_and_best_streak_for_user totals θ max_days end_day).1 ≤
      (current_and_best_streak_for_user totals θ max_days end_day).2 ∧
    (current_and_best_streak_for_user totals θ max_days end_day).2 ≤ max_days := by
  refine ⟨Nat.zero_le _, ?_, ?_⟩
  · show current_loop (good_day totals θ) end_day max_days ≤
      best_loop (good_day totals θ) (end_day - ((max_days : Int) - 1)) max_days 0 0
    have hc_le := current_loop_le (good_day totals θ) max_days end_day
    have hgood : ∀ i : Nat, i < current_loop (good_day totals θ) end_day max_days →
        good_day totals θ ((end_day - ((max_days : Int) - 1))
          + ((max_days : Int) - 1 - (i : Int))) = true := by
      intro i hi
      have harg : (end_day - ((max_days : Int) - 1)) + ((max_days : Int) - 1 - (i : Int))
          = end_day - (i : Int) := by ring
      rw [harg]
      exact current_loop_good (good_day totals θ) max_days end_day i hi
    have htrail := best_loop_trail (good_day totals θ) max_days
      (current_loop (good_day totals θ) end_day max_days)
      (end_day - ((max_days : Int) - 1)) 0 0 hc_le hgood
    omega
  · show best_loop (good_day totals θ) (end_day - ((max_days : Int) - 1)) max_days 0 0
      ≤ max_days
    have hle := best_loop_le (good_day totals θ) max_days
      (end_day - ((max_days : Int) - 1)) 0 0
    omega

/-- Helper: ask_number never returns less than the minimum when the
default already satisfies it. -/
theorem ask_number_ge_min {α : Type} [LinearOrder α] (default min_val : α)
    (hd : min_val ≤ default) (max_val : Option α) :
    ∀ l, min_val ≤ ask_number default min_val max_val l := by
  intro l
  induction l with
  | nil => exact hd
  | cons a rest ih =>
    cases a with
    | skip => exact hd
    | invalid => simpa [ask_number] using ih
    | num v =>
      simp only [ask_number]
      by_cases h1 : v < min_val
      · simpa [h1] using ih
      · cases max_val with
        | none => simpa [h1] using le_of_not_lt h1
        | some m =>
          by_cases h2 : m < v
          · simpa [h1, h2] using ih
          · simpa [h1, h2] using le_of_not_lt h1

/-- Helper: a category occurs in an appended log list when it occurs in
either part. -/
theorem logs_category_append (l1 l2 : List Entry) (c : String) :
    logs_category (l1 ++ l2) c ↔ logs_category l1 c ∨ logs_category l2 c := by
  simp [logs_category, List.mem_append, or_and_right, exists_or]

/-- Helper: a category occurs in a conditional singleton exactly when
the guard holds and the entry carries the category. -/
theorem logs_category_ite (p : Prop) [Decidable p] (e : Entry) (c : String) :
    logs_category (if p then [e] else []) c ↔ p ∧ e.category = c := by
  split_ifs with h <;> simp [logs_category, h]

/-- C4: in the guided check-in dialog an entry is appended for a
category exactly when that category's resolved value is non-zero
(non-default); a numeric question with no reply resolves to its default
(0 at every call site), so a timed-out question logs nothing for its
category while the rest of the dialog proceeds. -/
theorem checkin_logs_iff_nonzero (uid : Nat) (uname : String) (date : Int)
    (s : CheckinScripts) :
    (logs_category (run_checkin_dialog uid uname date s) "strength"
       ↔ (resolve_checkin s).lift_min ≠ 0) ∧
    (logs_category (run_checkin_dialog uid uname date s) "steps"
       ↔ (resolve_checkin s).steps ≠ 0) ∧
    (logs_category (run_checkin_dialog uid uname date s) "cardio"
       ↔ (resolve_checkin s).cardio_min ≠ 0) ∧
    (logs_category (run_checkin_dialog uid uname date s) "sleep"
       ↔ (resolve_checkin s).sleep_hours ≠ 0) ∧
    (logs_category (run_checkin_dialog uid uname date s) "protein"
       ↔ (resolve_checkin s).heavy_meals + (resolve_checkin s).shakes ≠ 0) ∧
    (logs_category (run_checkin_dialog uid uname date s) "supplements"
       ↔ (resolve_checkin s).vitamins.toNat + (resolve_checkin s).creatine.toNat
           + (resolve_checkin s).magnesium.toNat + (resolve_checkin s).omega3.toNat ≠ 0) ∧
    (logs_category (run_checkin_dialog uid uname date s) "water"
       ↔ (resolve_checkin s).water_oz ≠ 0) ∧
    (logs_category (run_checkin_dialog uid uname date s) "alcohol"
       ↔ (resolve_checkin s).drinks ≠ 0) ∧
    (logs_category (run_checkin_dialog uid uname date s) "pastry"
       ↔ (resolve_checkin s).pastries ≠ 0) ∧
    (logs_category (run_checkin_dialog uid uname date s) "fastfood"
       ↔ (resolve_checkin s).fast_meals ≠ 0) ∧
    (∀ (dq mn : ℚ) (mx : Option ℚ), ask_number dq mn mx [] = dq) ∧
    (∀ (di mn : Int) (mx : Option Int), ask_number di mn mx [] = di) ∧
    (s.steps = [] → (resolve_checkin s).steps = 0 ∧
      ¬ logs_category (run_checkin_dialog uid uname date s) "steps") := by
  have hlift : (0 : Int) ≤ (resolve_checkin s).lift_min :=
    ask_number_ge_min 0 0 le_rfl (some 300) s.lift_min
  have hcardio : (0 : Int) ≤ (resolve_checkin s).cardio_min :=
    ask_number_ge_min 0 0 le_rfl (some 300) s.cardio_min
  have hsteps : (0 : Int) ≤ (resolve_checkin s).steps :=
    ask_number_ge_min 0 0 le_rfl (some 100000) s.steps
  have hsleep : (0 : ℚ) ≤ (resolve_checkin s).sleep_hours :=
    ask_number_ge_min 0 0 le_rfl (some 16) s.sleep_hours
  have hheavy : (0 : Int) ≤ (resolve_checkin s).heavy_meals :=
    ask_number_ge_min 0 0 le_rfl (some 10) s.heavy_meals
  have hshakes : (0 : Int) ≤ (resolve_checkin s).shakes :=
    ask_number_ge_min 0 0 le_rfl (some 10) s.shakes
  have hwater : (0 : Int) ≤ (resolve_checkin s).water_oz :=
    ask_number_ge_min 0 0 le_rfl (some 300) s.water_oz
  have hdrinks : (0 : Int) ≤ (resolve_checkin s).drinks :=
    ask_number_ge_min 0 0 le_rfl (some 30) s.drinks
  have hpastries : (0 : Int) ≤ (resolve_checkin s).pastries :=
    ask_number_ge_min 0 0 le_rfl (some 20) s.pastries
  have hfast : (0 : Int) ≤ (resolve_checkin s).fast_meals :=
    ask_number_ge_min 0 0 le_rfl (some 10) s.fast_meals
  have hiff_steps : logs_category (run_checkin_dialog uid uname date s) "steps"
      ↔ (resolve_checkin s).steps ≠ 0 := by
    simp only [run_checkin_dialog, checkin_entries, logs_category_append,
      logs_category_ite]
    simp +decide
    omega
  refine ⟨?_, hiff_steps, ?_, ?_, ?_, ?_, ?_, ?_, ?_, ?_,
    fun dq mn mx => rfl, fun di mn mx => rfl, fun hts => ?_⟩
  · simp only [run_checkin_dialog, checkin_entries, logs_category_append,
      logs_category_ite]
    simp +decide
    omega
  · simp only [run_checkin_dialog, checkin_entries, logs_category_append,
      logs_category_ite]
    simp +decide
    omega
  · simp only [run_checkin_dialog, checkin_entries, logs_category_append,
      logs_category_ite]
    simp +decide
    constructor
    · intro h2
      exact ne_of_gt h2
    · intro h2
      exact lt_of_le_of_ne hsleep (Ne.symm h2)
  · simp only [run_checkin_dialog, checkin_entries, logs_category_append,
      logs_category_ite]
    simp +decide
    omega
  · simp only [run_checkin_dialog, checkin_entries, logs_category_append,
      logs_category_ite]
    simp +decide
    cases hv : (resolve_checkin s).vitamins <;>
      cases hc : (resolve_checkin s).creatine <;>
        cases hm : (resolve_checkin s).magnesium <;>
          cases ho : (resolve_checkin s).omega3 <;> simp
  · simp only [run_checkin_dialog, checkin_entries, logs_category_append,
      logs_category_ite]
    simp +decide
    omega
  · simp only [run_checkin_dialog, checkin_entries, logs_category_append,
      logs_category_ite]
    simp +decide
    omega
  · simp only [run_checkin_dialog, checkin_entries, logs_category_append,
      logs_category_ite]
    simp +decide
    omega
  · simp only [run_checkin_dialog, checkin_entries, logs_category_append,
      logs_category_ite]
    simp +decide
    omega
  · have hzero : (resolve_checkin s).steps = 0 := by
      simp [resolve_checkin, hts, ask_number]
    refine ⟨hzero, fun hl => ?_⟩
    exact (hiff_steps.mp hl) hzero

theorem checkin_logs_iff_nonzero_witness :
    (resolve_checkin all_timeout_scripts).steps = 0 ∧
    ¬ logs_category (run_checkin_dialog 1 "u" 0 all_timeout_scripts) "steps" :=
  (checkin_logs_iff_nonzero 1 "u" 0
    all_timeout_scripts).2.2.2.2.2.2.2.2.2.2.2.2 rfl

end FitnessBot
